import Mathlib

/-!
Verification of the clinical-record construction pipeline of the
healthlake-demo repository.  The Python sources under
`sample-healthlake/terraform/` are shallowly embedded as executable Lean
definitions: dict-shaped FHIR resources become a structure with optional
fields, the AWS service calls become explicit oracles (`ExtCall`), the
per-resource `uuid4` calls become a seeded id stream `gen : Nat → String`,
and `datetime.now()` becomes explicit `now`/`year` parameters.
-/

set_option maxRecDepth 4000

/-! ## Python string primitives

Helpers mirroring the Python string operations used by the sources:
`str.lower`, `str.upper`, slicing `s[:n]`, `str.strip`, `str.split()`,
`filter(str.isdigit, s)`, `int(...)` on a digit string, `str.find` and the
`in` substring test. -/

def pyLower (s : String) : String := (s.toList.map Char.toLower).asString

def pyUpper (s : String) : String := (s.toList.map Char.toUpper).asString

/-- Python slice `s[:n]` (by code points). -/
def pyTrunc (n : Nat) (s : String) : String := (s.toList.take n).asString

/-- Python `str.strip()`. -/
def pyStrip (s : String) : String :=
  (((s.toList.dropWhile Char.isWhitespace).reverse.dropWhile Char.isWhitespace).reverse).asString

/-- Helper for `pySplit`: accumulates the current word (reversed) while
splitting on whitespace runs. -/
def splitWSAux : List Char → List Char → List (List Char)
  | [], acc => if acc = [] then [] else [acc.reverse]
  | c :: cs, acc =>
    if c.isWhitespace then
      (if acc = [] then splitWSAux cs [] else acc.reverse :: splitWSAux cs [])
    else splitWSAux cs (c :: acc)

/-- Python `str.split()` with no argument: split on whitespace runs,
discarding empty pieces. -/
def pySplit (s : String) : List String := (splitWSAux s.toList []).map List.asString

/-- Python `filter(str.isdigit, s)`. -/
def pyDigits (s : String) : List Char := s.toList.filter Char.isDigit

/-- Numeric value of a digit string, as produced by Python `int` on the
concatenated digits. -/
def digitsVal (cs : List Char) : Nat :=
  cs.foldl (fun a c => a * 10 + (c.toNat - Char.toNat '0')) 0

/-- Python slice `l[a:b]` on a character list (clamps to the bounds). -/
def pySlice (l : List Char) (a b : Nat) : List Char := (l.drop a).take (b - a)

/-- Does `t` occur in `s` at position `p`? -/
def occursAtB (t s : List Char) (p : Nat) : Bool := t.isPrefixOf (s.drop p)

/-- Recursion of Python `s.find(t, start)`, with explicit fuel so that it
is structurally recursive (and hence evaluates inside the kernel); the
scan advances one position per step and stops once `t` no longer fits, so
`s.length + 1` steps always suffice. -/
def strFindAux (t s : List Char) : Nat → Nat → Option Nat
  | 0, _ => none
  | fuel + 1, start =>
    if s.length < start + t.length then none
    else if t.isPrefixOf (s.drop start) then some start
    else strFindAux t s fuel (start + 1)

/-- Python `s.find(t, start)`: the least position `≥ start` at which `t`
occurs in `s`, or `none` (Python `-1`). -/
def strFind (t s : List Char) (start : Nat) : Option Nat :=
  strFindAux t s (s.length + 1) start

/-- Python substring test `t in s`. -/
def pyContains (t s : String) : Bool := (strFind t.toList s.toList 0).isSome

/-- The body of the `while True: pos = text.find(term, start_pos)` loop of
`extract_cath_lab_entities`.  The Python loop needs no fuel because the
search position strictly increases and is bounded by the text length; the
fuel `s.length + 1` supplied by `findAllOccurrences` is provably enough. -/
def findAllAux (t s : List Char) : Nat → Nat → List Nat
  | 0, _ => []
  | fuel + 1, start =>
    match strFind t s start with
    | none => []
    | some p => p :: findAllAux t s fuel (p + 1)

def findAllOccurrences (t s : List Char) : List Nat :=
  findAllAux t s (s.length + 1) 0

/-- `mapIdx f k l` maps `f` over `l` with absolute indices starting at `k`;
it models loops that consume one fresh value (an id, a store response) per
element. -/
def mapIdx (f : Nat → α → β) : Nat → List α → List β
  | _, [] => []
  | k, a :: as => f k a :: mapIdx f (k + 1) as

/-! ## Data model

An `Entity` is one element of the `Entities` list returned by Comprehend
Medical (`detect_entities_v2` / `detect_phi`): fields `Category`, `Type`,
`Text`, `Score`, `BeginOffset`, `EndOffset`, `Attributes`.  The float
confidence score is only ever copied verbatim into outputs, so it is
carried as an opaque numeric token, and the attribute list is carried as an
opaque list. -/

structure Entity where
  category : String
  etype : String
  text : String
  score : Nat
  beginOffset : Nat
  endOffset : Nat
  attributes : List String
  deriving DecidableEq

/-- An entry of one of the `medications` / `diagnoses` / `procedures`
buckets built by `categorize_entities` in `clinical_notes_nlp.py`
(lines 104-135): `text`, `confidence`, `type` (uppercased), `attributes`. -/
structure ClassifiedEntity where
  text : String
  confidence : Nat
  ctype : String
  attributes : List String
  deriving DecidableEq

/-- An entry of the `cardiovascular_entities` list built by
`extract_cardiovascular_entities` (lines 137-200). -/
structure CardioEntity where
  text : String
  confidence : Nat
  category : String
  cardiovascular_type : String
  begin_offset : Nat
  end_offset : Nat
  attributes : List String
  deriving DecidableEq

/-- Outcome of one external call: a normal return or a raised exception
carrying the exception text. -/
inductive ExtCall (α : Type) where
  | ok (val : α)
  | raise (msg : String)
  deriving DecidableEq

/-- The bucket-entry projection shared by the three branches of
`categorize_entities`: `text = entity.get('Text')`,
`confidence = entity.get('Score')`, `type = entity.get('Type','').upper()`,
`attributes = entity.get('Attributes', [])`.  (The lowercased `text`
variable computed at line 111 of `clinical_notes_nlp.py` is never used.) -/
def toClassified (e : Entity) : ClassifiedEntity :=
  { text := e.text, confidence := e.score, ctype := pyUpper e.etype,
    attributes := e.attributes }

/-- `categorize_entities` of `clinical_notes_nlp.py` (lines 104-135): one
pass over `results['entities']`, appending to the `medications`,
`diagnoses`, `procedures` buckets according to
`entity.get('Category','').upper()`; anything else falls through the
`if/elif` chain and is dropped. -/
def categorize_entities : List Entity → List ClassifiedEntity × List ClassifiedEntity × List ClassifiedEntity
  | [] => ([], [], [])
  | e :: es =>
    let r := categorize_entities es
    if pyUpper e.category = "MEDICATION" then (toClassified e :: r.1, r.2.1, r.2.2)
    else if pyUpper e.category = "MEDICAL_CONDITION" then (r.1, toClassified e :: r.2.1, r.2.2)
    else if pyUpper e.category = "PROCEDURE" then (r.1, r.2.1, toClassified e :: r.2.2)
    else (r.1, r.2.1, r.2.2)

/-- The categories `categorize_entities` routes into a bucket; any entity
whose uppercased category is not one of these falls through the `if/elif`
chain. -/
def recognizedB (e : Entity) : Bool :=
  pyUpper e.category == "MEDICATION" || pyUpper e.category == "MEDICAL_CONDITION" ||
    pyUpper e.category == "PROCEDURE"

/-- Cardiovascular medication terms of `extract_cardiovascular_entities`. -/
def cardio_medications : List String :=
  ["statin", "atorvastatin", "simvastatin", "rosuvastatin",
   "beta-blocker", "metoprolol", "carvedilol", "atenolol",
   "ace inhibitor", "lisinopril", "enalapril", "captopril",
   "arb", "losartan", "valsartan", "telmisartan",
   "calcium channel blocker", "amlodipine", "diltiazem",
   "diuretic", "furosemide", "hydrochlorothiazide",
   "anticoagulant", "warfarin", "apixaban", "rivaroxaban",
   "antiplatelet", "aspirin", "clopidogrel", "prasugrel"]

/-- Cardiovascular procedure terms of `extract_cardiovascular_entities`. -/
def cardio_procedures : List String :=
  ["angioplasty", "stent", "stenting", "catheterization",
   "cardiac catheterization", "cath lab", "pci",
   "percutaneous coronary intervention", "cabg",
   "coronary artery bypass", "valve replacement",
   "angiogram", "coronary angiography", "echocardiogram",
   "stress test", "ekg", "electrocardiogram",
   "holter monitor", "cardiac mri", "ct angiography"]

/-- Cardiovascular condition terms of `extract_cardiovascular_entities`. -/
def cardio_conditions : List String :=
  ["coronary artery disease", "cad", "myocardial infarction",
   "heart attack", "angina", "chest pain", "arrhythmia",
   "atrial fibrillation", "heart failure", "chf",
   "hypertension", "high blood pressure", "hyperlipidemia",
   "high cholesterol", "atherosclerosis", "stenosis",
   "valve disease", "cardiomyopathy", "pericarditis",
   "endocarditis", "aortic stenosis", "mitral regurgitation"]

/-- `extract_cardiovascular_entities` of `clinical_notes_nlp.py`
(lines 137-200): flags each entity whose lowercased text contains some
term of one of the three lexicons (checked in that order) and appends a
`cardiovascular_entities` entry for it. -/
def extract_cardiovascular_entities (entities : List Entity) : List CardioEntity :=
  entities.filterMap fun e =>
    let entity_text := pyLower e.text
    let mk (ty : String) : CardioEntity :=
      { text := e.text, confidence := e.score, category := pyUpper e.category,
        cardiovascular_type := ty, begin_offset := e.beginOffset,
        end_offset := e.endOffset, attributes := e.attributes }
    if cardio_medications.any (fun term => pyContains term entity_text) then
      some (mk "cardiovascular_medication")
    else if cardio_procedures.any (fun term => pyContains term entity_text) then
      some (mk "cardiovascular_procedure")
    else if cardio_conditions.any (fun term => pyContains term entity_text) then
      some (mk "cardiovascular_condition")
    else none

/-- The NLP-results dictionary built by `process_clinical_text` (and, with
the audio-specific keys, by `process_transcription_with_nlp`); this is the
shape the FHIR creator loads from S3. -/
structure NlpResults where
  timestamp : String := ""
  processing_id : String := ""
  original_text : Option String := none
  original_audio_file : Option String := none
  transcription_text : Option String := none
  entities : List Entity := []
  phi_entities : List Entity := []
  medications : List ClassifiedEntity := []
  procedures : List ClassifiedEntity := []
  diagnoses : List ClassifiedEntity := []
  cardiovascular_entities : List CardioEntity := []
  error : Option String := none
  deriving DecidableEq

/-- `process_clinical_text` of `clinical_notes_nlp.py` (lines 64-102).
The two Comprehend Medical calls are oracles; the surrounding `try`
catches any exception they raise, stores its text under `results['error']`
and still returns the results dict (fields mutated before the failing call
keep their values).  `categorize_entities` and
`extract_cardiovascular_entities` are pure and cannot raise. -/
def process_clinical_text (detectEntities detectPhi : ExtCall (List Entity))
    (text ts pid : String) : NlpResults :=
  let base : NlpResults :=
    { timestamp := ts, processing_id := pid, original_text := some text }
  match detectEntities with
  | .raise m => { base with error := some m }
  | .ok es =>
    match detectPhi with
    | .raise m => { base with entities := es, error := some m }
    | .ok ps =>
      let buckets := categorize_entities es
      { base with
        entities := es, phi_entities := ps,
        medications := buckets.1, diagnoses := buckets.2.1,
        procedures := buckets.2.2,
        cardiovascular_entities := extract_cardiovascular_entities es }

/-! ## FHIR resource construction (`fhir_resource_creator.py`)

The dict-shaped FHIR resources become one structure with optional fields;
fields a given resource kind never sets keep their `none`/`[]` defaults
(i.e. the key is absent from the dict).  Constant metadata that is
identical on every resource of a kind (the `meta.tag` block, the LOINC /
SNOMED coding blocks, the `use`/`system` fields of identifiers, names and
addresses) carries no information and is not modelled; the varying parts
of those sub-objects (the identifier value, the name parts, the address
text) are.  The base64 `content.data` attachment is an injective fixed
encoding of the content text, so the text itself is carried
(`contentText`); `content.size` is the UTF-8 byte length as in the
source. -/

structure HumanName where
  family : Option String := none
  given : List String := []
  text : Option String := none
  deriving DecidableEq

structure FhirResource where
  resourceType : String
  id : String
  active : Option Bool := none
  identifier : List String := []
  name : List HumanName := []
  birthDate : Option String := none
  address : List String := []
  gender : Option String := none
  status : Option String := none
  date : Option String := none
  contentText : Option String := none
  contentSize : Option Nat := none
  codeText : Option String := none
  valueString : Option String := none
  medicationText : Option String := none
  effectiveDateTime : Option String := none
  recordedDate : Option String := none
  clinicalStatus : Option String := none
  verificationStatus : Option String := none
  subjectRef : Option String := none
  deriving DecidableEq

/-- The `patient_info` buckets of `create_patient_from_phi` (lines
148-170): one pass over `phi_entities`, keeping `phi.get('Text').strip()`
for each entry whose `phi.get('Type','').upper()` equals the given type
and whose stripped text is non-empty.  (The single loop filling five
lists at once is equivalent to one such pass per type.) -/
def phi_bucket (ty : String) (phis : List Entity) : List String :=
  phis.filterMap fun p =>
    let t := pyStrip p.text
    if pyUpper p.etype = ty ∧ t ≠ "" then some t else none

/-- Name parsing of `create_patient_from_phi` (lines 206-220):
`name_text.split()`; two or more parts give `family = parts[-1][:50]` and
`given = [part[:50] for part in parts[:-1]][:3]`, otherwise
`text = name_text[:100]`. -/
def parse_human_name (s : String) : HumanName :=
  let parts := pySplit s
  if 2 ≤ parts.length then
    { family := some (pyTrunc 50 (parts.getLast?.getD "")),
      given := (parts.dropLast.map (pyTrunc 50)).take 3 }
  else { text := some (pyTrunc 100 s) }

/-- Age-to-birthDate logic of `create_patient_from_phi` (lines 231-243):
if the first AGE text contains any digit, `age` is Python
`int(''.join(filter(str.isdigit, age_text)))` — the concatenation of ALL
digit characters of the text — and `birthDate` is set to
`f"{year - age}-01-01"` only when `0 < age < 150`.  The surrounding
`try/except` can never fire on these operations, and no step raises. -/
def age_birthDate (year : Int) (ageText : String) : Option String :=
  if pyDigits ageText = [] then none
  else
    let age := digitsVal (pyDigits ageText)
    if 0 < age ∧ age < 150 then
      some (toString (year - (age : Int)) ++ "-01-01")
    else none

/-- `create_patient_from_phi` (lines 140-260).  `pid` is the `uuid4` value
generated for this patient and `year` is `datetime.now().year`.  The
`dates` bucket is collected by the source but never used.  The `names`
list is built fully and then truncated with `names[:1]`; when it is empty
the fixed placeholder name is used instead. -/
def create_patient_from_phi (nlp : NlpResults) (pid : String) (year : Int) : FhirResource :=
  let names := (phi_bucket "NAME" nlp.phi_entities).map parse_human_name
  let ages := phi_bucket "AGE" nlp.phi_entities
  let ids := phi_bucket "ID" nlp.phi_entities
  let addresses := phi_bucket "ADDRESS" nlp.phi_entities
  { resourceType := "Patient", id := pid, active := some true,
    identifier := ids.map (fun t => pyTrunc 50 t),
    name :=
      (match names with
       | [] => [{ text := some "Patient from Clinical Note" }]
       | n :: _ => [n]),
    birthDate :=
      (match ages with
       | [] => none
       | a :: _ => age_birthDate year a),
    address := (addresses.take 1).map (fun t => pyTrunc 200 t),
    gender := some "unknown" }

/-- `create_document_reference` (lines 262-311).  `docId` is the `uuid4`
value and `now` is `get_fhir_datetime()`.  The `doc_type` variable
computed at lines 268-271 is never used by the source.  `contentText`
stands for the base64-encoded attachment data (an injective encoding of
the text), and `contentSize` is `len(content_text.encode('utf-8'))`. -/
def create_document_reference (nlp : NlpResults) (patientId docId now : String) : FhirResource :=
  let content_text := nlp.original_text.getD (nlp.transcription_text.getD "")
  { resourceType := "DocumentReference", id := docId, status := some "current",
    subjectRef := some ("Patient/" ++ patientId), date := some now,
    contentText := some content_text,
    contentSize := some content_text.utf8ByteSize }

/-- `create_cardiovascular_observations` (lines 313-371): one Observation
per entry of `cardiovascular_entities[:5]`; `gen` yields the successive
`uuid4` values starting at call index `k`. -/
def create_cardiovascular_observations (nlp : NlpResults) (patientId : String)
    (gen : Nat → String) (k : Nat) (now : String) : List FhirResource :=
  mapIdx (fun i e =>
    { resourceType := "Observation", id := gen i, status := some "final",
      codeText := some (pyTrunc 50 e.text),
      subjectRef := some ("Patient/" ++ patientId),
      effectiveDateTime := some now,
      valueString := some (pyTrunc 100 e.text) })
    k (nlp.cardiovascular_entities.take 5)

/-- `create_medication_statements` (lines 373-406): one
MedicationStatement per entry of `medications[:3]`. -/
def create_medication_statements (nlp : NlpResults) (patientId : String)
    (gen : Nat → String) (k : Nat) (now : String) : List FhirResource :=
  mapIdx (fun i m =>
    { resourceType := "MedicationStatement", id := gen i, status := some "unknown",
      medicationText := some (pyTrunc 100 m.text),
      subjectRef := some ("Patient/" ++ patientId),
      effectiveDateTime := some now })
    k (nlp.medications.take 3)

/-- `create_condition_resources` (lines 450-496): one Condition per entry
of `diagnoses[:3]`.  (`create_procedure_resources` exists in the source
but is never called by the pipeline.) -/
def create_condition_resources (nlp : NlpResults) (patientId : String)
    (gen : Nat → String) (k : Nat) (now : String) : List FhirResource :=
  mapIdx (fun i d =>
    { resourceType := "Condition", id := gen i,
      clinicalStatus := some "active", verificationStatus := some "unconfirmed",
      codeText := some (pyTrunc 100 d.text),
      subjectRef := some ("Patient/" ++ patientId),
      recordedDate := some now })
    k (nlp.diagnoses.take 3)

/-- `create_fhir_resources_from_nlp` (lines 111-138): Patient first, then
DocumentReference, then Observations, MedicationStatements, Conditions,
all non-Patient resources referencing `Patient/{patient_id}`.  The
`uuid4` calls happen once per created resource in exactly this order, so
the id stream `gen` is consumed at indices `0, 1, 2, ...`; `now` is
`get_fhir_datetime()` and `year` is `datetime.now().year`. -/
def create_fhir_resources_from_nlp (nlp : NlpResults) (gen : Nat → String)
    (now : String) (year : Int) : List FhirResource :=
  let patient := create_patient_from_phi nlp (gen 0) year
  let docRef := create_document_reference nlp patient.id (gen 1) now
  let obs := create_cardiovascular_observations nlp patient.id gen 2 now
  let meds := create_medication_statements nlp patient.id gen (2 + obs.length) now
  let conds := create_condition_resources nlp patient.id gen (2 + obs.length + meds.length) now
  patient :: docRef :: (obs ++ meds ++ conds)

/-! ## Publishing to HealthLake (`store_resources_in_healthlake`) -/

/-- Behaviour of one signed `PUT` against the store: either an HTTP
response (status and decoded body, `""` when the response carries no
data) or a raised transport exception with its text. -/
inductive StoreResult where
  | resp (status : Nat) (body : String)
  | exn (msg : String)
  deriving DecidableEq

/-- One element of the `responses` list of
`store_resources_in_healthlake`.  On success the source stores the parsed
body under `fhir_response` (or the raw text under `raw_response`); either
way it is the body string, carried here as `responseBody`. -/
structure StoreResponse where
  resourceType : String
  id : String
  status : String
  httpStatus : Option Nat := none
  responseBody : Option String := none
  error : Option String := none
  deriving DecidableEq

/-- Loop body of `store_resources_in_healthlake` (lines 514-589): HTTP
status 200 or 201 gives a `'created'` entry; any other status gives an
`'error'` entry whose `error` field is the decoded body, or
`'Unknown error'` when `response.data` is empty; a raised exception gives
an `'error'` entry with the exception text and no `httpStatus`. -/
def store_one (r : FhirResource) (res : StoreResult) : StoreResponse :=
  match res with
  | .resp s body =>
    if s = 200 ∨ s = 201 then
      { resourceType := r.resourceType, id := r.id, status := "created",
        httpStatus := some s, responseBody := some body }
    else
      { resourceType := r.resourceType, id := r.id, status := "error",
        httpStatus := some s,
        error := some (if body = "" then "Unknown error" else body) }
  | .exn m =>
    { resourceType := r.resourceType, id := r.id, status := "error",
      error := some m }

/-- `store_resources_in_healthlake` (lines 498-591): one `PUT` per
resource, in batch order, appending one response per resource; the
`store` oracle gives the outcome of the call for the `i`-th resource.
Both the non-2xx branch and the `except` branch fall through to the next
iteration — no retry, no abort. -/
def store_resources_in_healthlake (store : Nat → FhirResource → StoreResult)
    (resources : List FhirResource) : List StoreResponse :=
  mapIdx (fun i r => store_one r (store i r)) 0 resources

/-! ## Run summary and handlers -/

/-- The summary dict of `save_processing_summary` (lines 593-627).  The
`resource_breakdown` sub-dict iterates a Python set (unordered); its
per-type counts are exposed as `resource_breakdown` below instead of as a
field. -/
structure RunSummary where
  timestamp : String
  processing_id : String
  source_file : String
  nlp_entities_processed : Nat
  fhir_resources_created : Nat
  healthlake_responses : Nat
  successful_stores : Nat
  failed_stores : Nat
  deriving DecidableEq

/-- Number of resources of a given `resourceType` in a list (the value
`resource_breakdown[rt]` of the summary dict, and the counting used to
state the per-kind caps). -/
def countResourceType (rt : String) (l : List FhirResource) : Nat :=
  (l.filter (fun r => r.resourceType == rt)).length

/-- `save_processing_summary` (lines 593-627), restricted to the summary
content (the S3 `put_object` and its best-effort `try/except` are
external); `ts` is `datetime.utcnow().isoformat()` and `pid` the fresh
`uuid4` processing id. -/
def save_processing_summary (nlp : NlpResults) (resources : List FhirResource)
    (responses : List StoreResponse) (ts pid : String) : RunSummary :=
  { timestamp := ts, processing_id := pid,
    source_file := nlp.original_text.getD (nlp.original_audio_file.getD "unknown"),
    nlp_entities_processed := nlp.entities.length,
    fhir_resources_created := resources.length,
    healthlake_responses := responses.length,
    successful_stores := (responses.filter (fun r => r.status == "created")).length,
    failed_stores := (responses.filter (fun r => r.status == "error")).length }

/-- `load_nlp_results_from_s3` (lines 73-84): any exception of the S3 get
or of the JSON decode is caught and the empty dict `{}` is returned; the
caller's `if not nlp_results` truthiness test then sees a falsy value.
The empty dict is modelled as `none`. -/
def load_nlp_results_from_s3 (fetch : ExtCall NlpResults) : Option NlpResults :=
  match fetch with
  | .ok r => some r
  | .raise _ => none

structure HandlerResp where
  statusCode : Nat
  body : String
  deriving DecidableEq

/-- Everything observable about one run of the FHIR-creator `handler`:
the returned response, the resources built, the store responses, and the
summary written (absent on the early `'No results to process'` return). -/
structure RunTrace where
  response : HandlerResp
  resources : List FhirResource
  storeResponses : List StoreResponse
  summary : Option RunSummary
  deriving DecidableEq

/-- `handler` of `fhir_resource_creator.py` (lines 28-71), S3-triggered
path: load the NLP results, return early with 200 when they are falsy,
otherwise build, store, summarise and return 200.  (The full success body
also carries the resource and response counts, which are recorded in the
trace.) -/
def fhir_creator_handler (fetch : ExtCall NlpResults)
    (store : Nat → FhirResource → StoreResult) (gen : Nat → String)
    (now ts pid : String) (year : Int) : RunTrace :=
  match load_nlp_results_from_s3 fetch with
  | none =>
    { response := { statusCode := 200, body := "No results to process" },
      resources := [], storeResponses := [], summary := none }
  | some nlp =>
    let resources := create_fhir_resources_from_nlp nlp gen now year
    let responses := store_resources_in_healthlake store resources
    let summary := save_processing_summary nlp resources responses ts pid
    { response := { statusCode := 200, body := "FHIR resources created successfully" },
      resources := resources, storeResponses := responses,
      summary := some summary }

structure ClinicalHandlerResp where
  statusCode : Nat
  entities_detected : Nat
  deriving DecidableEq

/-- `handler` of `clinical_notes_nlp.py` (lines 18-62): fetch the note
from S3 (re-raising on failure), run `process_clinical_text` (which never
raises), write the results JSON (re-raising on failure) and return 200
with the entity count.  The second component of the result is the results
dict written to the output bucket. -/
def clinical_notes_handler (fetchText : ExtCall String)
    (detectEntities detectPhi : ExtCall (List Entity))
    (putResult : ExtCall Unit) (ts pid : String) :
    ExtCall (ClinicalHandlerResp × NlpResults) :=
  match fetchText with
  | .raise m => .raise m
  | .ok text =>
    let nlp := process_clinical_text detectEntities detectPhi text ts pid
    match putResult with
    | .raise m => .raise m
    | .ok _ =>
      .ok ({ statusCode := 200, entities_detected := nlp.entities.length }, nlp)

/-- One poll of `wait_for_transcription_completion` of
`audio_transcription.py` (lines 122-135): `COMPLETED` resolves to the
transcript, `FAILED` raises `Exception(f"Transcription job failed:
{failure_reason}")`, any other status keeps waiting (`none`). -/
inductive TranscriptionStatus where
  | completed (transcript : String)
  | failed (reason : String)
  | inProgress
  deriving DecidableEq

def check_transcription_job (st : TranscriptionStatus) : ExtCall (Option String) :=
  match st with
  | .completed tx => .ok (some tx)
  | .failed reason => .raise ("Transcription job failed: " ++ reason)
  | .inProgress => .ok none

/-! ## Cath-lab term scan (`extract_cath_lab_entities`, `audio_transcription.py`) -/

/-- The `cath_lab_terms` list of `extract_cath_lab_entities`
(lines 272-280). -/
def cath_lab_terms : List String :=
  ["catheter", "guidewire", "balloon", "stent", "contrast",
   "fluoroscopy", "angiography", "hemodynamics", "pressure",
   "injection", "vessel", "artery", "coronary", "lad", "rca", "lcx",
   "stenosis", "occlusion", "thrombus", "dissection",
   "complications", "bleeding", "hematoma", "perforation",
   "access site", "femoral", "radial", "closure device",
   "procedure time", "contrast volume", "radiation dose"]

/-- The `cath_procedures` list of `extract_cath_lab_entities`
(lines 283-289). -/
def cath_procedures : List String :=
  ["angioplasty", "ptca", "pci", "stenting", "atherectomy",
   "thrombectomy", "balloon angioplasty", "drug eluting stent",
   "bare metal stent", "rotablation", "cutting balloon",
   "intravascular ultrasound", "ivus", "oct", "ffr",
   "fractional flow reserve", "instantaneous wave free ratio"]

/-- One entry of the `cath_lab_specific` list (lines 303-309). -/
structure CathLabHit where
  text : String
  category : String
  position : Nat
  context : String
  source : String := "audio_transcription"
  deriving DecidableEq

/-- Category of a scan hit: `'cath_lab_equipment' if term in
cath_lab_terms else 'cath_lab_procedure'`. -/
def scanCategory (term : String) : String :=
  if cath_lab_terms.contains term then "cath_lab_equipment" else "cath_lab_procedure"

/-- The term-scan phase of `extract_cath_lab_entities` (lines 291-311):
for every term of `cath_lab_terms + cath_procedures` present in the
lowercased transcription text, every occurrence (the `while True` /
`find` / `start_pos = pos + 1` loop) yields one entry with its position
and its context window
`transcription_text[max(0, pos-50) : pos+len(term)+50]`. -/
def extract_cath_lab_scan (transcription_text : String) : List CathLabHit :=
  let lowered := (pyLower transcription_text).toList
  (cath_lab_terms ++ cath_procedures).flatMap fun term =>
    let t := term.toList
    if (strFind t lowered 0).isSome then
      (findAllOccurrences t lowered).map fun pos =>
        { text := term, category := scanCategory term, position := pos,
          context := (pySlice lowered (pos - 50) (pos + t.length + 50)).asString,
          source := "audio_transcription" }
    else []

/-- Keyword phase of `extract_cath_lab_entities` (lines 313-329): entities
whose lowercased text contains one of the cardio keywords are also
appended to `cardiovascular_entities` (carried here as the filtered
entity list). -/
def cath_cardio_keywords : List String :=
  ["coronary", "cardiac", "heart", "cardiovascular", "vessel",
   "artery", "stenosis", "ischemia", "myocardial", "angina"]

def extract_cath_lab_cardio (entities : List Entity) : List Entity :=
  entities.filter fun e =>
    cath_cardio_keywords.any (fun kw => pyContains kw (pyLower e.text))

/-! ## Claimed (spec-worded) variants used for refinement comparisons -/

/-- The age parse described by the claim (NOT by the source): "parsing the
first run of digits in the AGE text".  Kept separate from `age_birthDate`
above, which follows the source and concatenates ALL digit characters. -/
def claimed_first_run_digits (s : String) : List Char :=
  (s.toList.dropWhile (fun c => !c.isDigit)).takeWhile Char.isDigit

/-- The claimed birthDate computation: first digit run, accepted on
`(0, 150)`, emitted as `{year - age}-01-01`. -/
def claimed_age_birthDate (year : Int) (ageText : String) : Option String :=
  if claimed_first_run_digits ageText = [] then none
  else
    let age := digitsVal (claimed_first_run_digits ageText)
    if 0 < age ∧ age < 150 then
      some (toString (year - (age : Int)) ++ "-01-01")
    else none

/-! ## Concrete inputs for the claim instances -/

def mkEntity (cat ty tx : String) : Entity :=
  { category := cat, etype := ty, text := tx, score := 95,
    beginOffset := 0, endOffset := 0, attributes := [] }

def c1_entities : List Entity :=
  [mkEntity "MEDICATION" "GENERIC_NAME" "aspirin",
   mkEntity "MEDICAL_CONDITION" "DX_NAME" "stenosis"]

def c1_phi : List Entity :=
  [mkEntity "PROTECTED_HEALTH_INFORMATION" "NAME" "John Doe"]

def c1_nlp : NlpResults :=
  process_clinical_text (.ok c1_entities) (.ok c1_phi)
    "Patient John Doe takes aspirin for stenosis" "2026-02-03T00:00:00" "proc-1"

def c1_gen : Nat → String := fun n => "id-" ++ toString n

def c1_resources : List FhirResource :=
  create_fhir_resources_from_nlp c1_nlp c1_gen "2026-02-03T00:00:01Z" 2026

def c1_responses : List StoreResponse :=
  store_resources_in_healthlake (fun _ _ => .resp 201 "ok") c1_resources

def c1_summary : RunSummary :=
  save_processing_summary c1_nlp c1_resources c1_responses "2026-02-03T00:00:02" "proc-2"

def c2_record (n : String) : FhirResource := { resourceType := "Patient", id := n }

def c2_batch : List FhirResource := [c2_record "a", c2_record "b", c2_record "c"]

def c2_store : Nat → FhirResource → StoreResult :=
  fun i _ => if i = 1 then .resp 400 "Invalid resource" else .resp 201 "ok"

def mkPhiAge (tx : String) : Entity := mkEntity "PROTECTED_HEALTH_INFORMATION" "AGE" tx

def c3_nlp45 : NlpResults := { phi_entities := [mkPhiAge "approximately 45 years old"] }

def c3_nlpNA : NlpResults := { phi_entities := [mkPhiAge "N/A"] }

def c3_nlp80 : NlpResults := { phi_entities := [mkPhiAge "80 yo seen 2 weeks ago"] }

def c4_entities : List Entity :=
  [mkEntity "MEDICATION" "GENERIC_NAME" "aspirin",
   mkEntity "MEDICATION" "GENERIC_NAME" "metoprolol",
   mkEntity "MEDICATION" "GENERIC_NAME" "lisinopril",
   mkEntity "MEDICATION" "GENERIC_NAME" "warfarin",
   mkEntity "MEDICATION" "GENERIC_NAME" "furosemide",
   mkEntity "MEDICATION" "GENERIC_NAME" "amlodipine",
   mkEntity "MEDICATION" "GENERIC_NAME" "losartan"]

def c6_lowercase_entity : Entity := mkEntity "medication" "GENERIC_NAME" "aspirin"

def c6_phi_entity : Entity := mkEntity "PROTECTED_HEALTH_INFORMATION" "NAME" "John Doe"

def c6_list : List Entity :=
  [mkEntity "MEDICATION" "GENERIC_NAME" "aspirin",
   mkEntity "OTHER" "X" "noise",
   mkEntity "MEDICAL_CONDITION" "DX_NAME" "stenosis",
   mkEntity "PROCEDURE" "PROCEDURE_NAME" "angioplasty"]

/-- A text with `"stent"` at positions 10 and 40 and no other lexicon
term anywhere. -/
def c7_text : String := "xxxxxxxxxxstentxxxxxxxxxxxxxxxxxxxxxxxxxstent"

def c8_nlp : NlpResults :=
  process_clinical_text (.raise "boom") (.ok []) "note" "ts-0" "pid-0"

def c8_gen : Nat → String := fun n => toString n

def c9_nlp : NlpResults := { original_text := some "note text" }

def c9_gen : Nat → String := fun n => toString n

/-! ## Helper lemmas -/

theorem mapIdx_length (f : Nat → α → β) (k : Nat) (l : List α) :
    (mapIdx f k l).length = l.length := by
  induction l generalizing k with
  | nil => rfl
  | cons a as ih => simp [mapIdx, ih]

theorem mapIdx_getElem? (f : Nat → α → β) (k i : Nat) (l : List α) :
    (mapIdx f k l)[i]? = (l[i]?).map (f (k + i)) := by
  induction l generalizing k i with
  | nil => simp [mapIdx]
  | cons a as ih =>
    cases i with
    | zero => simp [mapIdx]
    | succ i =>
      simp only [mapIdx, List.getElem?_cons_succ, ih (k + 1) i]
      have h : k + 1 + i = k + (i + 1) := by omega
      rw [h]

theorem forall_mem_mapIdx {P : β → Prop} (f : Nat → α → β)
    (h : ∀ i a, P (f i a)) (k : Nat) (l : List α) :
    ∀ b ∈ mapIdx f k l, P b := by
  induction l generalizing k with
  | nil => intro b hb; cases hb
  | cons a as ih =>
    intro b hb
    simp only [mapIdx, List.mem_cons] at hb
    rcases hb with rfl | hb
    · exact h _ _
    · exact ih (k + 1) b hb

theorem occursAtB_length {t s : List Char} {q : Nat}
    (h : occursAtB t s q = true) : t.length ≤ s.length - q := by
  simp only [occursAtB] at h
  have hp : t <+: s.drop q := List.isPrefixOf_iff_prefix.mp h
  simpa using hp.length_le

theorem strFindAux_some_spec (t s : List Char) :
    ∀ (fuel k p : Nat), strFindAux t s fuel k = some p →
      k ≤ p ∧ occursAtB t s p = true ∧
        ∀ q, k ≤ q → q < p → occursAtB t s q = false := by
  intro fuel
  induction fuel with
  | zero => intro k p h; exact absurd h (by simp [strFindAux])
  | succ fuel ih =>
    intro k p h
    rw [strFindAux] at h
    split at h
    · exact absurd h (by simp)
    · split at h
      · rename_i hpre
        injection h with h
        subst h
        exact ⟨le_refl _, hpre,
          fun q hq hlt => absurd (lt_of_le_of_lt hq hlt) (lt_irrefl _)⟩
      · rename_i hpre
        have h2 := ih (k + 1) p h
        refine ⟨by omega, h2.2.1, ?_⟩
        intro q hq hlt
        by_cases hqk : q = k
        · subst hqk
          simp only [occursAtB]
          exact Bool.eq_false_iff.mpr hpre
        · exact h2.2.2 q (by omega) hlt

theorem strFindAux_none_spec (t s : List Char) (ht : t ≠ []) :
    ∀ (fuel k : Nat), s.length + 1 ≤ k + fuel → strFindAux t s fuel k = none →
      ∀ q, k ≤ q → occursAtB t s q = false := by
  intro fuel
  induction fuel with
  | zero =>
    intro k hk _ q hq
    cases hb : occursAtB t s q with
    | false => rfl
    | true =>
      exfalso
      have h1 := occursAtB_length hb
      have h2 : 1 ≤ t.length := List.length_pos.mpr ht
      omega
  | succ fuel ih =>
    intro k hk h
    rw [strFindAux] at h
    split at h
    · rename_i hlen
      intro q hq
      cases hb : occursAtB t s q with
      | false => rfl
      | true =>
        exfalso
        have h1 := occursAtB_length hb
        have h2 : 1 ≤ t.length := List.length_pos.mpr ht
        omega
    · split at h
      · exact absurd h (by simp)
      · rename_i hpre
        intro q hq
        by_cases hqk : q = k
        · subst hqk
          simp only [occursAtB]
          exact Bool.eq_false_iff.mpr hpre
        · exact ih (k + 1) (by omega) h q (by omega)

theorem strFind_spec (t s : List Char) (k p : Nat) (h : strFind t s k = some p) :
    k ≤ p ∧ occursAtB t s p = true ∧
      ∀ q, k ≤ q → q < p → occursAtB t s q = false :=
  strFindAux_some_spec t s (s.length + 1) k p h

theorem strFind_none_spec (t s : List Char) (ht : t ≠ []) (k : Nat)
    (h : strFind t s k = none) : ∀ q, k ≤ q → occursAtB t s q = false :=
  strFindAux_none_spec t s ht (s.length + 1) k (by omega) h

theorem mem_findAllAux (t s : List Char) (ht : t ≠ []) :
    ∀ (fuel start q : Nat), s.length + 1 ≤ start + fuel →
      (q ∈ findAllAux t s fuel start ↔ (start ≤ q ∧ occursAtB t s q = true)) := by
  intro fuel
  induction fuel with
  | zero =>
    intro start q hle
    constructor
    · intro h; cases h
    · rintro ⟨hq, hocc⟩
      have h1 := occursAtB_length hocc
      have h2 : 1 ≤ t.length := List.length_pos.mpr ht
      omega
  | succ fuel ih =>
    intro start q hle
    simp only [findAllAux]
    cases hf : strFind t s start with
    | none =>
      constructor
      · intro h; cases h
      · rintro ⟨hq, hocc⟩
        have := strFind_none_spec t s ht start hf q hq
        rw [this] at hocc
        cases hocc
    | some p =>
      obtain ⟨hsp, hoccp, hmin⟩ := strFind_spec t s start p hf
      have hrec := ih (p + 1) q (by omega)
      simp only [List.mem_cons, hrec]
      constructor
      · rintro (rfl | ⟨hq1, hocc⟩)
        · exact ⟨hsp, hoccp⟩
        · exact ⟨by omega, hocc⟩
      · rintro ⟨hq, hocc⟩
        by_cases hlt : q < p
        · have := hmin q hq hlt
          rw [this] at hocc
          cases hocc
        · by_cases hqp : q = p
          · exact Or.inl hqp
          · exact Or.inr ⟨by omega, hocc⟩

theorem mem_findAllOccurrences (t s : List Char) (ht : t ≠ []) (q : Nat) :
    q ∈ findAllOccurrences t s ↔ occursAtB t s q = true := by
  have h := mem_findAllAux t s ht (s.length + 1) 0 q (by omega)
  simpa [findAllOccurrences] using h

theorem categorize_medications_eq (es : List Entity) :
    (categorize_entities es).1 =
      (es.filter (fun e => pyUpper e.category == "MEDICATION")).map toClassified := by
  induction es with
  | nil => rfl
  | cons e es ih =>
    by_cases h1 : pyUpper e.category = "MEDICATION" <;>
      by_cases h2 : pyUpper e.category = "MEDICAL_CONDITION" <;>
        by_cases h3 : pyUpper e.category = "PROCEDURE" <;>
          simp [categorize_entities, List.filter_cons, h1, h2, h3, ih]

theorem categorize_diagnoses_eq (es : List Entity) :
    (categorize_entities es).2.1 =
      (es.filter (fun e => pyUpper e.category == "MEDICAL_CONDITION")).map toClassified := by
  induction es with
  | nil => rfl
  | cons e es ih =>
    by_cases h1 : pyUpper e.category = "MEDICATION" <;>
      by_cases h2 : pyUpper e.category = "MEDICAL_CONDITION" <;>
        by_cases h3 : pyUpper e.category = "PROCEDURE" <;>
          simp [categorize_entities, List.filter_cons, h1, h2, h3, ih]

theorem categorize_procedures_eq (es : List Entity) :
    (categorize_entities es).2.2 =
      (es.filter (fun e => pyUpper e.category == "PROCEDURE")).map toClassified := by
  induction es with
  | nil => rfl
  | cons e es ih =>
    by_cases h1 : pyUpper e.category = "MEDICATION" <;>
      by_cases h2 : pyUpper e.category = "MEDICAL_CONDITION" <;>
        by_cases h3 : pyUpper e.category = "PROCEDURE" <;>
          simp [categorize_entities, List.filter_cons, h1, h2, h3, ih]

theorem countResourceType_cons (rt : String) (r : FhirResource) (l : List FhirResource) :
    countResourceType rt (r :: l) =
      (if r.resourceType == rt then 1 else 0) + countResourceType rt l := by
  simp only [countResourceType, List.filter_cons]
  split
  · simp [Nat.add_comm]
  · simp

theorem countResourceType_append (rt : String) (l₁ l₂ : List FhirResource) :
    countResourceType rt (l₁ ++ l₂) =
      countResourceType rt l₁ + countResourceType rt l₂ := by
  simp [countResourceType, List.filter_append]

theorem countResourceType_mapIdx_const {α : Type} (f : Nat → α → FhirResource)
    (c : String) (h : ∀ i a, (f i a).resourceType = c) (rt : String) :
    ∀ (k : Nat) (l : List α),
      countResourceType rt (mapIdx f k l) = if c == rt then l.length else 0 := by
  intro k l
  induction l generalizing k with
  | nil => simp [mapIdx, countResourceType]
  | cons a as ih =>
    show countResourceType rt (f k a :: mapIdx f (k + 1) as) = _
    rw [countResourceType_cons, h k a, ih (k + 1)]
    by_cases hc : c = rt <;> simp [hc, Nat.add_comm]

theorem create_patient_resourceType (nlp : NlpResults) (pid : String) (year : Int) :
    (create_patient_from_phi nlp pid year).resourceType = "Patient" := rfl

theorem create_docref_resourceType (nlp : NlpResults) (patientId docId now : String) :
    (create_document_reference nlp patientId docId now).resourceType =
      "DocumentReference" := rfl

theorem count_obs_batch (nlp : NlpResults) (gen : Nat → String) (now : String) (year : Int) :
    countResourceType "Observation" (create_fhir_resources_from_nlp nlp gen now year) =
      (nlp.cardiovascular_entities.take 5).length := by
  simp only [create_fhir_resources_from_nlp, create_cardiovascular_observations,
    create_medication_statements, create_condition_resources]
  rw [countResourceType_cons, countResourceType_cons, countResourceType_append,
    countResourceType_append,
    countResourceType_mapIdx_const _ "Observation" (fun i a => rfl),
    countResourceType_mapIdx_const _ "MedicationStatement" (fun i a => rfl),
    countResourceType_mapIdx_const _ "Condition" (fun i a => rfl),
    create_patient_resourceType, create_docref_resourceType]
  simp

theorem count_med_batch (nlp : NlpResults) (gen : Nat → String) (now : String) (year : Int) :
    countResourceType "MedicationStatement"
        (create_fhir_resources_from_nlp nlp gen now year) =
      (nlp.medications.take 3).length := by
  simp only [create_fhir_resources_from_nlp, create_cardiovascular_observations,
    create_medication_statements, create_condition_resources]
  rw [countResourceType_cons, countResourceType_cons, countResourceType_append,
    countResourceType_append,
    countResourceType_mapIdx_const _ "Observation" (fun i a => rfl),
    countResourceType_mapIdx_const _ "MedicationStatement" (fun i a => rfl),
    countResourceType_mapIdx_const _ "Condition" (fun i a => rfl),
    create_patient_resourceType, create_docref_resourceType]
  simp

theorem count_cond_batch (nlp : NlpResults) (gen : Nat → String) (now : String) (year : Int) :
    countResourceType "Condition" (create_fhir_resources_from_nlp nlp gen now year) =
      (nlp.diagnoses.take 3).length := by
  simp only [create_fhir_resources_from_nlp, create_cardiovascular_observations,
    create_medication_statements, create_condition_resources]
  rw [countResourceType_cons, countResourceType_cons, countResourceType_append,
    countResourceType_append,
    countResourceType_mapIdx_const _ "Observation" (fun i a => rfl),
    countResourceType_mapIdx_const _ "MedicationStatement" (fun i a => rfl),
    countResourceType_mapIdx_const _ "Condition" (fun i a => rfl),
    create_patient_resourceType, create_docref_resourceType]
  simp

theorem count_patient_batch (nlp : NlpResults) (gen : Nat → String) (now : String) (year : Int) :
    countResourceType "Patient" (create_fhir_resources_from_nlp nlp gen now year) = 1 := by
  simp only [create_fhir_resources_from_nlp, create_cardiovascular_observations,
    create_medication_statements, create_condition_resources]
  rw [countResourceType_cons, countResourceType_cons, countResourceType_append,
    countResourceType_append,
    countResourceType_mapIdx_const _ "Observation" (fun i a => rfl),
    countResourceType_mapIdx_const _ "MedicationStatement" (fun i a => rfl),
    countResourceType_mapIdx_const _ "Condition" (fun i a => rfl),
    create_patient_resourceType, create_docref_resourceType]
  simp

theorem mapIdx_map_proj {α β γ : Type} (f : Nat → α → β) (g : β → γ) (h : α → γ)
    (hc : ∀ i a, g (f i a) = h a) : ∀ (k : Nat) (l : List α),
      (mapIdx f k l).map g = l.map h := by
  intro k l
  induction l generalizing k with
  | nil => rfl
  | cons a as ih => simp [mapIdx, hc, ih (k + 1)]

/-! ## Claim theorems -/

/-- C1 counterexample: on the three-entity input (MEDICATION "aspirin",
MEDICAL_CONDITION "stenosis", PHI NAME "John Doe") with a store that
always answers 201, the run summary does NOT have
`fhir_resources_created = 4` and `successful_stores = 4`: both "aspirin"
and "stenosis" also match the cardiovascular lexicons, so two Observation
resources are created in addition to the four resources the claim
lists. -/
theorem c1_claim_false :
    ¬(c1_summary.fhir_resources_created = 4 ∧ c1_summary.successful_stores = 4) := by
  decide

/-- C1 (amended): the same end-to-end run produces
`fhir_resources_created = 6` and `successful_stores = 6` — one Patient,
one DocumentReference, two Observations (from the cardiovascular-entity
scan, which matches both "aspirin" and "stenosis"), one
MedicationStatement and one Condition. -/
theorem c1_pipeline_counts :
    c1_summary.fhir_resources_created = 6 ∧
    c1_summary.successful_stores = 6 ∧
    countResourceType "Patient" c1_resources = 1 ∧
    countResourceType "DocumentReference" c1_resources = 1 ∧
    countResourceType "Observation" c1_resources = 2 ∧
    countResourceType "MedicationStatement" c1_resources = 1 ∧
    countResourceType "Condition" c1_resources = 1 := by
  decide

/-- C2 counterexample: the response body is NOT always captured verbatim
in the error detail — an error response with an empty body yields
`error = 'Unknown error'`, not the (empty) body itself. -/
theorem c2_counterexample :
    (store_resources_in_healthlake (fun _ _ => .resp 400 "") [c2_record "z"]).map
        (fun o => o.error) = [some "Unknown error"] ∧
      some "Unknown error" ≠ some ("" : String) := by
  exact ⟨by decide, by decide⟩

/-- C2 (amended): publish returns exactly one outcome per record in batch
order (the `i`-th outcome is the independently computed outcome of the
`i`-th record, so one record's failure never affects the rest); an
outcome is `created` iff the store answered 200 or 201, any other status
yields `error` with the response body captured when non-empty (the
placeholder `'Unknown error'` when the body is empty), and a raised
transport exception yields `error` with the exception text; a 3-record
batch whose second record gets HTTP 400 yields outcomes
`[created, error, created]` with the 400 body in the middle error
detail. -/
theorem c2_publish_outcomes :
    (∀ (store : Nat → FhirResource → StoreResult) (resources : List FhirResource),
        (store_resources_in_healthlake store resources).length = resources.length ∧
        ∀ i : Nat, (store_resources_in_healthlake store resources)[i]? =
          (resources[i]?).map (fun r => store_one r (store i r))) ∧
    (∀ (r : FhirResource) (s : Nat) (body : String),
        (store_one r (.resp s body)).status =
          (if s = 200 ∨ s = 201 then "created" else "error") ∧
        (store_one r (.resp s body)).error =
          (if s = 200 ∨ s = 201 then none
           else some (if body = "" then "Unknown error" else body)) ∧
        (store_one r (.resp s body)).httpStatus = some s) ∧
    (∀ (r : FhirResource) (m : String),
        (store_one r (.exn m)).status = "error" ∧
        (store_one r (.exn m)).error = some m) ∧
    ((store_resources_in_healthlake c2_store c2_batch).map (fun o => o.status) =
        ["created", "error", "created"] ∧
      (store_resources_in_healthlake c2_store c2_batch).map (fun o => o.error) =
        [none, some "Invalid resource", none]) := by
  refine ⟨fun store resources =>
      ⟨mapIdx_length _ _ _, fun i => by simpa using mapIdx_getElem? _ 0 i resources⟩,
    ?_, ?_, ?_⟩
  · intro r s body
    by_cases h : s = 200 ∨ s = 201 <;> simp [store_one, h]
  · intro r m
    exact ⟨rfl, rfl⟩
  · exact ⟨by decide, by decide⟩

/-- C3 counterexample: the age is NOT parsed from the first run of digits.
For the AGE text `"80 yo seen 2 weeks ago"` the first digit run is `80`
(claimed birthDate `1946-01-01` at year 2026), but the code concatenates
ALL digit characters, parses 802, rejects it against `0 < age < 150` and
omits the field. -/
theorem c3_counterexample :
    (create_patient_from_phi c3_nlp80 "p" 2026).birthDate = none ∧
    claimed_age_birthDate 2026 "80 yo seen 2 weeks ago" = some "1946-01-01" ∧
    (none : Option String) ≠ some "1946-01-01" := by
  exact ⟨by decide, by decide, by decide⟩

/-- C3 (amended): the birthDate is obtained from the first AGE PHI entity
by concatenating ALL digit characters in its text; the value is accepted
only when strictly between 0 and 150 and then emitted as
`{year - age}-01-01`; if there is no AGE entity or the text contains no
digit, or the value is out of range, the field is omitted (never an
error).  `"approximately 45 years old"` parses to 45 and yields
`1981-01-01` at year 2026; `"N/A"` has no digit and yields no
birthDate. -/
theorem c3_age_birthdate (nlp : NlpResults) (pid : String) (year : Int) :
    (phi_bucket "AGE" nlp.phi_entities = [] →
      (create_patient_from_phi nlp pid year).birthDate = none) ∧
    (∀ a rest, phi_bucket "AGE" nlp.phi_entities = a :: rest →
      (create_patient_from_phi nlp pid year).birthDate =
        (if pyDigits a = [] then none
         else if 0 < digitsVal (pyDigits a) ∧ digitsVal (pyDigits a) < 150 then
           some (toString (year - (digitsVal (pyDigits a) : Int)) ++ "-01-01")
         else none)) ∧
    digitsVal (pyDigits "approximately 45 years old") = 45 ∧
    (create_patient_from_phi c3_nlp45 "p" 2026).birthDate = some "1981-01-01" ∧
    pyDigits "N/A" = [] ∧
    (create_patient_from_phi c3_nlpNA "p" 2026).birthDate = none := by
  refine ⟨?_, ?_, by decide, by decide, by decide, by decide⟩
  · intro h
    simp [create_patient_from_phi, h]
  · intro a rest h
    simp [create_patient_from_phi, h, age_birthDate]

theorem c3_age_birthdate_witness :
    (create_patient_from_phi c3_nlp45 "p" 2026).birthDate = some "1981-01-01" :=
  (c3_age_birthdate c3_nlp45 "p" 2026).2.2.2.1

/-- C4: the record batch holds at most 5 Observations, at most 3
MedicationStatements and at most 3 Conditions; each capped record list is
built from the FRONT of its classified bucket
(`cardiovascular_entities[:5]`, `medications[:3]`, `diagnoses[:3]`), the
per-record payload being the truncated text of the corresponding bucket
entry in order, entities beyond the cap being dropped; and an input whose
entities contain exactly 7 of category MEDICATION yields exactly 3
MedicationStatement records. -/
theorem c4_caps :
    (∀ (nlp : NlpResults) (gen : Nat → String) (now : String) (year : Int),
        countResourceType "Observation"
            (create_fhir_resources_from_nlp nlp gen now year) ≤ 5 ∧
        countResourceType "MedicationStatement"
            (create_fhir_resources_from_nlp nlp gen now year) ≤ 3 ∧
        countResourceType "Condition"
            (create_fhir_resources_from_nlp nlp gen now year) ≤ 3) ∧
    (∀ (nlp : NlpResults) (pid : String) (gen : Nat → String) (k : Nat) (now : String),
        (create_cardiovascular_observations nlp pid gen k now).map
            (fun r => (r.codeText, r.valueString)) =
          (nlp.cardiovascular_entities.take 5).map
            (fun e => (some (pyTrunc 50 e.text), some (pyTrunc 100 e.text)))) ∧
    (∀ (nlp : NlpResults) (pid : String) (gen : Nat → String) (k : Nat) (now : String),
        (create_medication_statements nlp pid gen k now).map (fun r => r.medicationText) =
          (nlp.medications.take 3).map (fun m => some (pyTrunc 100 m.text))) ∧
    (∀ (nlp : NlpResults) (pid : String) (gen : Nat → String) (k : Nat) (now : String),
        (create_condition_resources nlp pid gen k now).map (fun r => r.codeText) =
          (nlp.diagnoses.take 3).map (fun d => some (pyTrunc 100 d.text))) ∧
    (∀ (es phis : List Entity) (text ts pid : String) (gen : Nat → String)
        (now : String) (year : Int),
        (es.filter (fun e => pyUpper e.category == "MEDICATION")).length = 7 →
        countResourceType "MedicationStatement"
          (create_fhir_resources_from_nlp
            (process_clinical_text (.ok es) (.ok phis) text ts pid) gen now year) = 3) := by
  refine ⟨?_, ?_, ?_, ?_, ?_⟩
  · intro nlp gen now year
    rw [count_obs_batch, count_med_batch, count_cond_batch]
    refine ⟨?_, ?_, ?_⟩ <;> rw [List.length_take] <;> omega
  · intro nlp pid gen k now
    simp only [create_cardiovascular_observations]
    refine mapIdx_map_proj _ _ _ ?_ k _
    intro i a
    rfl
  · intro nlp pid gen k now
    simp only [create_medication_statements]
    refine mapIdx_map_proj _ _ _ ?_ k _
    intro i a
    rfl
  · intro nlp pid gen k now
    simp only [create_condition_resources]
    refine mapIdx_map_proj _ _ _ ?_ k _
    intro i a
    rfl
  · intro es phis text ts pid gen now year hlen
    have hm : (process_clinical_text (.ok es) (.ok phis) text ts pid).medications.length = 7 := by
      show ((categorize_entities es).1).length = 7
      rw [categorize_medications_eq]
      simpa using hlen
    rw [count_med_batch, List.length_take]
    omega

theorem c4_caps_witness :
    countResourceType "MedicationStatement"
      (create_fhir_resources_from_nlp
        (process_clinical_text (.ok c4_entities) (.ok []) "t" "ts" "pid")
        c1_gen "now" 2026) = 3 :=
  c4_caps.2.2.2.2 c4_entities [] "t" "ts" "pid" c1_gen "now" 2026 (by decide)

/-- C5: the batch is the unique Patient record, then the
DocumentReference, then the Observations, MedicationStatements and
Conditions grouped by kind in that order, and every non-Patient record
references `Patient/` followed by the batch Patient's id. -/
theorem c5_batch_structure (nlp : NlpResults) (gen : Nat → String)
    (now : String) (year : Int) :
    ∃ pat doc obs meds conds,
      create_fhir_resources_from_nlp nlp gen now year =
          pat :: doc :: (obs ++ meds ++ conds) ∧
      pat.resourceType = "Patient" ∧ pat.subjectRef = none ∧
      doc.resourceType = "DocumentReference" ∧
      (∀ r ∈ obs, r.resourceType = "Observation") ∧
      (∀ r ∈ meds, r.resourceType = "MedicationStatement") ∧
      (∀ r ∈ conds, r.resourceType = "Condition") ∧
      (∀ r ∈ doc :: (obs ++ meds ++ conds),
        r.subjectRef = some ("Patient/" ++ pat.id)) ∧
      countResourceType "Patient" (create_fhir_resources_from_nlp nlp gen now year) = 1 := by
  refine ⟨create_patient_from_phi nlp (gen 0) year,
    create_document_reference nlp (create_patient_from_phi nlp (gen 0) year).id (gen 1) now,
    create_cardiovascular_observations nlp (create_patient_from_phi nlp (gen 0) year).id gen 2 now,
    _, _, rfl, rfl, rfl, rfl, ?_, ?_, ?_, ?_, count_patient_batch nlp gen now year⟩
  · intro r hr
    simp only [create_cardiovascular_observations] at hr
    refine forall_mem_mapIdx
      (P := fun r : FhirResource => r.resourceType = "Observation") _ ?_ _ _ r hr
    intro i a
    rfl
  · intro r hr
    simp only [create_medication_statements] at hr
    refine forall_mem_mapIdx
      (P := fun r : FhirResource => r.resourceType = "MedicationStatement") _ ?_ _ _ r hr
    intro i a
    rfl
  · intro r hr
    simp only [create_condition_resources] at hr
    refine forall_mem_mapIdx
      (P := fun r : FhirResource => r.resourceType = "Condition") _ ?_ _ _ r hr
    intro i a
    rfl
  · intro r hr
    rcases List.mem_cons.mp hr with rfl | hr
    · rfl
    · rcases List.mem_append.mp hr with hr | hr
      · rcases List.mem_append.mp hr with hr | hr
        · simp only [create_cardiovascular_observations] at hr
          refine forall_mem_mapIdx
            (P := fun r : FhirResource => r.subjectRef =
              some ("Patient/" ++ (create_patient_from_phi nlp (gen 0) year).id)) _ ?_ _ _ r hr
          intro i a
          rfl
        · simp only [create_medication_statements] at hr
          refine forall_mem_mapIdx
            (P := fun r : FhirResource => r.subjectRef =
              some ("Patient/" ++ (create_patient_from_phi nlp (gen 0) year).id)) _ ?_ _ _ r hr
          intro i a
          rfl
      · simp only [create_condition_resources] at hr
        refine forall_mem_mapIdx
          (P := fun r : FhirResource => r.subjectRef =
            some ("Patient/" ++ (create_patient_from_phi nlp (gen 0) year).id)) _ ?_ _ _ r hr
        intro i a
        rfl

theorem c5_batch_structure_witness :
    ∃ pat doc obs meds conds,
      create_fhir_resources_from_nlp c1_nlp c1_gen "now" 2026 =
          pat :: doc :: (obs ++ meds ++ conds) ∧
      pat.resourceType = "Patient" ∧ pat.subjectRef = none ∧
      doc.resourceType = "DocumentReference" ∧
      (∀ r ∈ obs, r.resourceType = "Observation") ∧
      (∀ r ∈ meds, r.resourceType = "MedicationStatement") ∧
      (∀ r ∈ conds, r.resourceType = "Condition") ∧
      (∀ r ∈ doc :: (obs ++ meds ++ conds),
        r.subjectRef = some ("Patient/" ++ pat.id)) ∧
      countResourceType "Patient" (create_fhir_resources_from_nlp c1_nlp c1_gen "now" 2026) = 1 :=
  c5_batch_structure c1_nlp c1_gen "now" 2026

/-- C6 counterexample: classification is NOT by exact category match, and
PHI-category entities appear in no bucket.  An entity with category
`"medication"` (not equal to `"MEDICATION"`) is still placed in the
medications bucket because the code matches on the uppercased category,
and an entity with category `PROTECTED_HEALTH_INFORMATION` lands in none
of the produced buckets (no phi bucket exists in this output). -/
theorem c6_counterexample :
    (categorize_entities [c6_lowercase_entity]).1 = [toClassified c6_lowercase_entity] ∧
    c6_lowercase_entity.category ≠ "MEDICATION" ∧
    categorize_entities [c6_phi_entity] = ([], [], []) := by
  exact ⟨by decide, by decide, by decide⟩

/-- C6 (amended): `categorize_entities` produces three buckets
(medications, diagnoses, procedures), each equal to the order-preserving
filter of the input on the UPPERCASED category (hence a subsequence of
the input's image), entities with any other category being dropped
silently; the union of the three buckets is exactly the image of the
subset of input entities whose uppercased category is one of the three
recognized ones.  The phi list of the results dict is filled by the
separate PHI-detection call, not by this classification. -/
theorem c6_classify (es : List Entity) :
    ((categorize_entities es).1 =
        (es.filter (fun e => pyUpper e.category == "MEDICATION")).map toClassified) ∧
    ((categorize_entities es).2.1 =
        (es.filter (fun e => pyUpper e.category == "MEDICAL_CONDITION")).map toClassified) ∧
    ((categorize_entities es).2.2 =
        (es.filter (fun e => pyUpper e.category == "PROCEDURE")).map toClassified) ∧
    List.Sublist (categorize_entities es).1 (es.map toClassified) ∧
    List.Sublist (categorize_entities es).2.1 (es.map toClassified) ∧
    List.Sublist (categorize_entities es).2.2 (es.map toClassified) ∧
    (∀ c, (c ∈ (categorize_entities es).1 ∨ c ∈ (categorize_entities es).2.1 ∨
            c ∈ (categorize_entities es).2.2) ↔
          c ∈ (es.filter recognizedB).map toClassified) := by
  refine ⟨categorize_medications_eq es, categorize_diagnoses_eq es,
    categorize_procedures_eq es, ?_, ?_, ?_, ?_⟩
  · rw [categorize_medications_eq]
    exact (List.filter_sublist es).map toClassified
  · rw [categorize_diagnoses_eq]
    exact (List.filter_sublist es).map toClassified
  · rw [categorize_procedures_eq]
    exact (List.filter_sublist es).map toClassified
  · intro c
    rw [categorize_medications_eq, categorize_diagnoses_eq, categorize_procedures_eq]
    simp only [List.mem_map, List.mem_filter, recognizedB, Bool.or_eq_true, beq_iff_eq]
    constructor
    · rintro (⟨e, ⟨he, hcat⟩, rfl⟩ | ⟨e, ⟨he, hcat⟩, rfl⟩ | ⟨e, ⟨he, hcat⟩, rfl⟩)
      · exact ⟨e, ⟨he, Or.inl (Or.inl hcat)⟩, rfl⟩
      · exact ⟨e, ⟨he, Or.inl (Or.inr hcat)⟩, rfl⟩
      · exact ⟨e, ⟨he, Or.inr hcat⟩, rfl⟩
    · rintro ⟨e, ⟨he, hrec⟩, rfl⟩
      rcases hrec with (h | h) | h
      · exact Or.inl ⟨e, ⟨he, h⟩, rfl⟩
      · exact Or.inr (Or.inl ⟨e, ⟨he, h⟩, rfl⟩)
      · exact Or.inr (Or.inr ⟨e, ⟨he, h⟩, rfl⟩)

theorem c6_classify_witness :
    (categorize_entities c6_list).1 =
      (c6_list.filter (fun e => pyUpper e.category == "MEDICATION")).map toClassified :=
  (c6_classify c6_list).1

/-- C7: the domain-term scan reports, for every lexicon term, every
case-insensitive occurrence in the source text — a hit with text `term`
and position `p` is in the output iff `term` occurs in the lowercased
text at `p`, and every such hit carries the context window
`text[max(0, p-50) : p+len(term)+50]` (clipped to the text bounds by the
slice itself); terms are scanned independently of each other.  The text
with `"stent"` at positions 10 and 40 yields exactly the two
corresponding hits for that term. -/
theorem c7_domain_scan :
    (∀ (txt term : String), term ∈ cath_lab_terms ++ cath_procedures →
      (∀ p : Nat,
        ((⟨term, scanCategory term, p,
            (pySlice ((pyLower txt).toList) (p - 50)
              (p + term.toList.length + 50)).asString,
            "audio_transcription"⟩ : CathLabHit) ∈ extract_cath_lab_scan txt ↔
          occursAtB term.toList ((pyLower txt).toList) p = true)) ∧
      (∀ h ∈ extract_cath_lab_scan txt, h.text = term →
        occursAtB term.toList ((pyLower txt).toList) h.position = true ∧
        h.context = (pySlice ((pyLower txt).toList) (h.position - 50)
          (h.position + term.toList.length + 50)).asString ∧
        h.category = scanCategory term)) ∧
    ((extract_cath_lab_scan c7_text).filter (fun h => h.text == "stent") =
      [⟨"stent", "cath_lab_equipment", 10, c7_text, "audio_transcription"⟩,
       ⟨"stent", "cath_lab_equipment", 40, c7_text, "audio_transcription"⟩]) := by
  have hne : ∀ term ∈ cath_lab_terms ++ cath_procedures, term.toList ≠ [] := by decide
  refine ⟨?_, by decide⟩
  intro txt term hterm
  constructor
  · intro p
    constructor
    · intro hmem
      simp only [extract_cath_lab_scan, List.mem_flatMap] at hmem
      obtain ⟨term2, hterm2, hmem⟩ := hmem
      split at hmem
      · simp only [List.mem_map] at hmem
        obtain ⟨q, hq, heq⟩ := hmem
        have htext : term2 = term := congrArg CathLabHit.text heq
        have hpos : q = p := congrArg CathLabHit.position heq
        subst htext
        subst hpos
        exact (mem_findAllOccurrences _ _ (hne term2 hterm2) q).mp hq
      · cases hmem
    · intro hocc
      simp only [extract_cath_lab_scan, List.mem_flatMap]
      refine ⟨term, hterm, ?_⟩
      have hfind : (strFind term.toList ((pyLower txt).toList) 0).isSome = true := by
        cases hf : strFind term.toList ((pyLower txt).toList) 0 with
        | some q => rfl
        | none =>
          have := strFind_none_spec _ _ (hne term hterm) 0 hf p (Nat.zero_le p)
          rw [this] at hocc
          cases hocc
      rw [if_pos hfind]
      simp only [List.mem_map]
      exact ⟨p, (mem_findAllOccurrences _ _ (hne term hterm) p).mpr hocc, rfl⟩
  · intro h hmem htext
    simp only [extract_cath_lab_scan, List.mem_flatMap] at hmem
    obtain ⟨term2, hterm2, hmem⟩ := hmem
    split at hmem
    · simp only [List.mem_map] at hmem
      obtain ⟨q, hq, heq⟩ := hmem
      have hterm2eq : term2 = term := by
        rw [← htext, ← heq]
      subst hterm2eq
      subst heq
      exact ⟨(mem_findAllOccurrences _ _ (hne term2 hterm2) q).mp hq, rfl, rfl⟩
    · cases hmem

theorem c7_domain_scan_witness :
    (⟨"stent", scanCategory "stent", 10,
        (pySlice ((pyLower c7_text).toList) (10 - 50)
          (10 + "stent".toList.length + 50)).asString,
        "audio_transcription"⟩ : CathLabHit) ∈ extract_cath_lab_scan c7_text :=
  ((c7_domain_scan.1 c7_text "stent" (by decide)).1 10).mpr (by decide)

/-- C8 counterexample: a run whose entity-extraction call raises does NOT
abort to a failed state — the exception is swallowed inside
`process_clinical_text`, the handler returns statusCode 200 with the
error recorded in the results, and downstream FHIR creation still builds
two records (Patient and DocumentReference) from the empty result. -/
theorem c8_counterexample :
    clinical_notes_handler (.ok "note") (.raise "boom") (.ok []) (.ok ()) "ts-0" "pid-0" =
        .ok ({ statusCode := 200, entities_detected := 0 }, c8_nlp) ∧
      c8_nlp.error = some "boom" ∧
      (create_fhir_resources_from_nlp c8_nlp c8_gen "T" 2026).length = 2 := by
  exact ⟨by decide, by decide, by decide⟩

/-- C8 (amended): only a transcription sub-job that reports terminal
FAILED status aborts its run (the poll raises); a failure of the
entity-extraction call inside `process_clinical_text` is caught — the
result carries the exception text under `error` with empty entity lists,
the handler still completes with statusCode 200, and downstream record
building proceeds, producing the Subject and SourceDocument records (a
batch of length 2). -/
theorem c8_extraction_failure (m : String) (dp : ExtCall (List Entity))
    (text ts pid : String) (gen : Nat → String) (now : String) (year : Int)
    (reason : String) :
    (process_clinical_text (.raise m) dp text ts pid).error = some m ∧
    (process_clinical_text (.raise m) dp text ts pid).entities = [] ∧
    clinical_notes_handler (.ok text) (.raise m) dp (.ok ()) ts pid =
      .ok ({ statusCode := 200, entities_detected := 0 },
        process_clinical_text (.raise m) dp text ts pid) ∧
    (create_fhir_resources_from_nlp (process_clinical_text (.raise m) dp text ts pid)
        gen now year).length = 2 ∧
    check_transcription_job (.failed reason) =
      .raise ("Transcription job failed: " ++ reason) := by
  exact ⟨rfl, rfl, rfl, rfl, rfl⟩

/-- C9 counterexample: running `build` twice with the same
`ExtractionResult` and the same seeded id generator but at two different
clock readings yields different batches (the DocumentReference `date`
differs), so build is NOT deterministic in the id seed alone. -/
theorem c9_counterexample :
    create_fhir_resources_from_nlp c9_nlp c9_gen "2026-01-01T00:00:00Z" 2026 ≠
      create_fhir_resources_from_nlp c9_nlp c9_gen "2026-01-02T00:00:00Z" 2026 := by
  decide

/-- C9 (amended): `build` is deterministic once the clock is mocked as
well — it is a pure function of the extraction result, the id stream, the
`get_fhir_datetime()` timestamp and the current year, so two runs with
all four equal produce identical batches. -/
theorem c9_determinism (nlp₁ nlp₂ : NlpResults) (gen₁ gen₂ : Nat → String)
    (now₁ now₂ : String) (year₁ year₂ : Int)
    (h₁ : nlp₁ = nlp₂) (h₂ : gen₁ = gen₂) (h₃ : now₁ = now₂) (h₄ : year₁ = year₂) :
    create_fhir_resources_from_nlp nlp₁ gen₁ now₁ year₁ =
      create_fhir_resources_from_nlp nlp₂ gen₂ now₂ year₂ := by
  subst h₁; subst h₂; subst h₃; subst h₄; rfl

theorem c9_determinism_witness :
    create_fhir_resources_from_nlp c9_nlp c9_gen "2026-01-01T00:00:00Z" 2026 =
      create_fhir_resources_from_nlp c9_nlp c9_gen "2026-01-01T00:00:00Z" 2026 :=
  c9_determinism c9_nlp c9_nlp c9_gen c9_gen "2026-01-01T00:00:00Z"
    "2026-01-01T00:00:00Z" 2026 2026 rfl rfl rfl rfl

/-- C10: when the NLP-results artifact cannot be loaded, the loader
swallows the exception and returns the empty (falsy) result, and the
handler returns statusCode 200 with body `'No results to process'`,
building no resource and publishing nothing. -/
theorem c10_no_results (m : String) (store : Nat → FhirResource → StoreResult)
    (gen : Nat → String) (now ts pid : String) (year : Int) :
    load_nlp_results_from_s3 (.raise m) = none ∧
    fhir_creator_handler (.raise m) store gen now ts pid year =
      { response := { statusCode := 200, body := "No results to process" },
        resources := [], storeResponses := [], summary := none } :=
  ⟨rfl, rfl⟩
